import Mathlib

/-!
Shallow embedding of the multi-agent orchestration pipeline
(scripts/multi_agent.py): role registry, stage executor (call_model),
prompt construction, the two workflow engines, and the command-line
entry point. The external generation backend (an `ollama` subprocess)
is modelled as an oracle mapping the invocation index, model name and
full prompt to an outcome.
-/

/-- The outcome of one backend subprocess invocation, as observed by
`call_model`: a successful completion with the process stdout, a
`subprocess.TimeoutExpired`, or a `subprocess.CalledProcessError`
whose string rendering is `detail`. -/
inductive BackendOutcome where
  | success : String → BackendOutcome
  | timeout : BackendOutcome
  | calledProcessError : String → BackendOutcome
deriving DecidableEq

/-- The external backend: invocation index, model name, full prompt
to outcome. The index models the position of the subprocess call in
the sequential stream of calls a run performs. -/
abbrev Backend := Nat → String → String → BackendOutcome

/-- `AgentRole` enumeration from the source. -/
inductive AgentRole where
  | planning
  | coding
  | testing
  | reviewing
deriving DecidableEq

/-- `ModelConfig` dataclass from the source. Temperatures are the
exact decimal literals of the source, as rationals. -/
structure ModelConfig where
  name : String
  role : AgentRole
  temperature : Rat
  description : String
deriving DecidableEq

/-- The `MODELS` entry for `AgentRole.PLANNING`. -/
def planningConfig : ModelConfig :=
  ⟨"qwen2.5-coder:14b-instruct-q4_K_M", AgentRole.planning, 0.2,
   "Creates detailed implementation plans"⟩

/-- The `MODELS` entry for `AgentRole.CODING`. -/
def codingConfig : ModelConfig :=
  ⟨"qwen2.5-coder:7b-instruct-q8_0", AgentRole.coding, 0.15,
   "Implements code with high quality"⟩

/-- The `MODELS` entry for `AgentRole.TESTING`. -/
def testingConfig : ModelConfig :=
  ⟨"qwen2.5-coder:7b-instruct-q6_K", AgentRole.testing, 0.15,
   "Generates tests and validates"⟩

/-- The `MultiAgentOrchestrator.MODELS` dictionary: a partial map
from roles to configurations, `none` mirroring a `KeyError` on a
missing key. The source dictionary has entries for PLANNING, CODING
and TESTING only. -/
def MODELS : AgentRole → Option ModelConfig
  | AgentRole.planning => some planningConfig
  | AgentRole.coding => some codingConfig
  | AgentRole.testing => some testingConfig
  | AgentRole.reviewing => none

/-- The record of one `call_model` invocation boundary: the arguments
the workflow hands to the stage executor. -/
structure Invocation where
  model_name : String
  full_prompt : String
  temperature : Rat
deriving DecidableEq

/-- The full prompt built inside `call_model`: the system prompt, when
present, is prepended to the prompt with a blank line between. -/
def full_prompt_of (prompt : String) (system_prompt : Option String) : String :=
  match system_prompt with
  | some sp => sp ++ "\n\n" ++ prompt
  | none => prompt

/-- Python `str.strip()`: remove whitespace from both ends of the
string. -/
def strip (s : String) : String :=
  ⟨((s.data.dropWhile Char.isWhitespace).reverse.dropWhile
      Char.isWhitespace).reverse⟩

/-- `MultiAgentOrchestrator.call_model`. Returns the subprocess stdout
stripped of surrounding whitespace on success, the fixed string
"Error: Model call timed out" on timeout, and "Error: " followed by
the exception text on a non-zero completion — a plain string on every
path. The second component records the invocation the call performed. -/
def call_model (backend : Backend) (idx : Nat) (model_name : String)
    (prompt : String) (temperature : Rat)
    (system_prompt : Option String) : String × Invocation :=
  let full_prompt := full_prompt_of prompt system_prompt
  (match backend idx model_name full_prompt with
   | BackendOutcome.success stdout => strip stdout
   | BackendOutcome.timeout => "Error: Model call timed out"
   | BackendOutcome.calledProcessError e => "Error: " ++ e,
   ⟨model_name, full_prompt, temperature⟩)

/-- System prompt of the planning agent. -/
def planning_system_prompt : String :=
  "You are an expert software architect. Your role is to:\n1. Analyze the task requirements thoroughly\n2. Break down the task into clear, actionable steps\n3. Identify potential challenges and edge cases\n4. Suggest the best approach and design patterns\n5. Create a detailed implementation plan\n\nProvide a structured plan with:\n- Overview of the approach\n- Step-by-step implementation steps\n- Key considerations and potential issues\n- Suggestions for testing\n"

/-- User prompt of the planning agent. -/
def planning_prompt (task_description : String) : String :=
  "Task: " ++ task_description ++
  "\n\nPlease create a detailed implementation plan for this task.\n"

/-- System prompt of the coding agent. -/
def coding_system_prompt : String :=
  "You are an expert software engineer. Your role is to:\n1. Implement code based on the provided plan\n2. Write clean, efficient, and well-documented code\n3. Follow best practices and coding standards\n4. Include proper error handling\n5. Add comments for complex logic\n6. Ensure code is production-ready\n\nFocus on code quality over speed. The code should be correct, maintainable, and robust.\n"

/-- User prompt of the coding agent: the task, then the prior stage
text under the "Implementation Plan:" label. -/
def coding_prompt (task : String) (plan : String) : String :=
  "Task: " ++ task ++ "\n\nImplementation Plan:\n" ++ plan ++
  "\n\nPlease implement the code according to this plan. Provide complete, working code.\n"

/-- System prompt of the testing agent. -/
def testing_system_prompt : String :=
  "You are an expert QA engineer. Your role is to:\n1. Review the provided code thoroughly\n2. Identify potential bugs or issues\n3. Generate comprehensive unit tests\n4. Test edge cases and error conditions\n5. Provide feedback on code quality\n6. Suggest improvements if needed\n\nFocus on thorough validation and quality assurance.\n"

/-- User prompt of the testing agent: the task, then the prior stage
text under the "Code to test:" label. -/
def testing_prompt (task : String) (code : String) : String :=
  "Task: " ++ task ++ "\n\nCode to test:\n" ++ code ++
  "\n\nPlease:\n1. Review the code for potential issues\n2. Generate comprehensive unit tests\n3. Identify any bugs or improvements needed\n"

/-- A nested key/value document, mirroring the JSON-serialisable
dictionaries the Python code builds (strings, numbers, lists and
string-keyed dictionaries). -/
inductive PyVal where
  | str : String → PyVal
  | num : Rat → PyVal
  | arr : List PyVal → PyVal
  | dict : List (String × PyVal) → PyVal

/-- The top-level keys of a document, in construction order; empty for
a non-dictionary. -/
def PyVal.keys : PyVal → List String
  | PyVal.dict fields => fields.map Prod.fst
  | _ => []

/-- The dictionary returned by `planning_agent`:
keys "plan", "model", "timestamp". -/
structure PlanningResult where
  plan : String
  model : String
  timestamp : Rat
deriving DecidableEq

/-- The dictionary view of a `PlanningResult`, keys in source order. -/
def PlanningResult.toPy (r : PlanningResult) : PyVal :=
  PyVal.dict [("plan", PyVal.str r.plan), ("model", PyVal.str r.model),
              ("timestamp", PyVal.num r.timestamp)]

/-- The dictionary returned by `coding_agent`:
keys "code", "model", "timestamp". -/
structure CodingResult where
  code : String
  model : String
  timestamp : Rat
deriving DecidableEq

/-- The dictionary view of a `CodingResult`, keys in source order. -/
def CodingResult.toPy (r : CodingResult) : PyVal :=
  PyVal.dict [("code", PyVal.str r.code), ("model", PyVal.str r.model),
              ("timestamp", PyVal.num r.timestamp)]

/-- The dictionary returned by `testing_agent`:
keys "tests", "model", "timestamp". -/
structure TestingResult where
  tests : String
  model : String
  timestamp : Rat
deriving DecidableEq

/-- The dictionary view of a `TestingResult`, keys in source order. -/
def TestingResult.toPy (r : TestingResult) : PyVal :=
  PyVal.dict [("tests", PyVal.str r.tests), ("model", PyVal.str r.model),
              ("timestamp", PyVal.num r.timestamp)]

/-- `MultiAgentOrchestrator.planning_agent`: builds the planning
prompt from the task alone, invokes the planning model through
`call_model`, and returns the result dictionary stamped with the
current time `t`. -/
def planning_agent (backend : Backend) (idx : Nat) (t : Rat)
    (task_description : String) : PlanningResult × Invocation :=
  let pc := call_model backend idx planningConfig.name
    (planning_prompt task_description) planningConfig.temperature
    (some planning_system_prompt)
  (⟨pc.1, planningConfig.name, t⟩, pc.2)

/-- `MultiAgentOrchestrator.coding_agent`: builds the coding prompt
from the task and the prior plan text, invokes the coding model, and
returns the result dictionary stamped with the current time `t`. -/
def coding_agent (backend : Backend) (idx : Nat) (t : Rat)
    (task : String) (plan : String) : CodingResult × Invocation :=
  let pc := call_model backend idx codingConfig.name
    (coding_prompt task plan) codingConfig.temperature
    (some coding_system_prompt)
  (⟨pc.1, codingConfig.name, t⟩, pc.2)

/-- `MultiAgentOrchestrator.testing_agent`: builds the testing prompt
from the task and the prior code text, invokes the testing model, and
returns the result dictionary stamped with the current time `t`. -/
def testing_agent (backend : Backend) (idx : Nat) (t : Rat)
    (task : String) (code : String) : TestingResult × Invocation :=
  let pc := call_model backend idx testingConfig.name
    (testing_prompt task code) testingConfig.temperature
    (some testing_system_prompt)
  (⟨pc.1, testingConfig.name, t⟩, pc.2)

/-- The dictionary returned by `run_three_agent_workflow`. -/
structure ThreeAgentRecord where
  task : String
  planning : PlanningResult
  coding : CodingResult
  testing : TestingResult
  total_time_seconds : Rat
deriving DecidableEq

/-- The dictionary view of a `ThreeAgentRecord`, keys in source
order, including the constant "workflow" tag. -/
def ThreeAgentRecord.toPy (r : ThreeAgentRecord) : PyVal :=
  PyVal.dict [("task", PyVal.str r.task),
              ("planning", r.planning.toPy),
              ("coding", r.coding.toPy),
              ("testing", r.testing.toPy),
              ("total_time_seconds", PyVal.num r.total_time_seconds),
              ("workflow", PyVal.str "three_agent_quality")]

/-- `MultiAgentOrchestrator.run_three_agent_workflow`: planning, then
coding on the planning output, then testing on the coding output;
`times k` is the value of the k-th `time.time()` call of the run
(0 = start, 1..3 = stage timestamps, 4 = end). Also returns the
ordered list of backend invocations performed. -/
def run_three_agent_workflow (backend : Backend) (times : Nat → Rat)
    (task : String) : ThreeAgentRecord × List Invocation :=
  let start_time := times 0
  let p := planning_agent backend 0 (times 1) task
  let c := coding_agent backend 1 (times 2) task p.1.plan
  let t := testing_agent backend 2 (times 3) task c.1.code
  let total_time := times 4 - start_time
  (⟨task, p.1, c.1, t.1, total_time⟩, [p.2, c.2, t.2])

/-- One entry of the "iterations" list of the iterative workflow. -/
structure Iteration where
  pass : Nat
  model : String
  output : String
deriving DecidableEq

/-- The dictionary view of an `Iteration`, keys in source order. -/
def Iteration.toPy (i : Iteration) : PyVal :=
  PyVal.dict [("pass", PyVal.num i.pass), ("model", PyVal.str i.model),
              ("output", PyVal.str i.output)]

/-- The dictionary returned by `run_iterative_refinement`: the task
and the iterations list only. -/
structure IterativeRecord where
  task : String
  iterations : List Iteration
deriving DecidableEq

/-- The dictionary view of an `IterativeRecord`, keys in source
order. -/
def IterativeRecord.toPy (r : IterativeRecord) : PyVal :=
  PyVal.dict [("task", PyVal.str r.task),
              ("iterations", PyVal.arr (r.iterations.map Iteration.toPy))]

/-- Prompt of the first (draft) pass of the iterative workflow. -/
def draft_prompt (task : String) : String :=
  "Task: " ++ task ++ "\n\nCreate a working implementation:"

/-- Prompt of the second (refine) pass: the task, then the prior pass
text under the "Initial draft:" label. -/
def refine_prompt (task : String) (draft : String) : String :=
  "Task: " ++ task ++ "\n\nInitial draft:\n" ++ draft ++
  "\n\nReview and improve this code, fix any issues:"

/-- Prompt of the third (deep-fix) pass: the task, then the prior pass
text under the "Refined code:" label. -/
def deepfix_prompt (task : String) (refined : String) : String :=
  "Task: " ++ task ++ "\n\nRefined code:\n" ++ refined ++
  "\n\nFinal review and any necessary fixes:"

/-- `MultiAgentOrchestrator.run_iterative_refinement`: three fixed
passes (q4 draft at temperature 0.2, q6 refine at 0.15, q8 deep fix at
0.15), each pass receiving the previous pass text; no time calls, no
quality gate. Also returns the ordered backend invocations. -/
def run_iterative_refinement (backend : Backend) (task : String) :
    IterativeRecord × List Invocation :=
  let draft := call_model backend 0 "qwen2.5-coder:7b-instruct-q4_K_M"
    (draft_prompt task) 0.2 none
  let refined := call_model backend 1 "qwen2.5-coder:7b-instruct-q6_K"
    (refine_prompt task draft.1) 0.15 none
  let final := call_model backend 2 "qwen2.5-coder:7b-instruct-q8_0"
    (deepfix_prompt task refined.1) 0.15 none
  (⟨task, [⟨1, "7b-q4", draft.1⟩, ⟨2, "7b-q6", refined.1⟩,
           ⟨3, "7b-q8", final.1⟩]⟩,
   [draft.2, refined.2, final.2])

/-- `MultiAgentOrchestrator.check_ollama`: `some 1` (process exit with
status 1) when the `ollama --version` probe fails, `none` when the
backend is available. -/
def check_ollama (available : Bool) : Option Nat :=
  if available then none else some 1

/-- The observable outcome of a `main` invocation: a usage exit
(status 0), a fatal backend-unavailability exit (status 1), an
unknown-workflow exit (status 1), or a completed workflow whose record
was written to the named file. -/
inductive MainOutcome where
  | exit0Usage : MainOutcome
  | exit1BackendUnavailable : MainOutcome
  | exit1UnknownWorkflow : String → MainOutcome
  | wroteThreeAgent : String → ThreeAgentRecord → List Invocation → MainOutcome
  | wroteIterative : String → IterativeRecord → List Invocation → MainOutcome

/-- The process exit status of a `main` outcome. -/
def MainOutcome.exitCode : MainOutcome → Nat
  | MainOutcome.exit0Usage => 0
  | MainOutcome.exit1BackendUnavailable => 1
  | MainOutcome.exit1UnknownWorkflow _ => 1
  | MainOutcome.wroteThreeAgent _ _ _ => 0
  | MainOutcome.wroteIterative _ _ _ => 0

/-- The destination file a `main` outcome wrote a record to, if any. -/
def MainOutcome.writtenFile : MainOutcome → Option String
  | MainOutcome.wroteThreeAgent f _ _ => some f
  | MainOutcome.wroteIterative f _ _ => some f
  | _ => none

/-- The backend invocations a `main` outcome performed: none on any
exit path, the workflow trace otherwise. -/
def MainOutcome.invocations : MainOutcome → List Invocation
  | MainOutcome.wroteThreeAgent _ _ tr => tr
  | MainOutcome.wroteIterative _ _ tr => tr
  | _ => []

/-- The task derived from the argument vector: the space-joined
arguments past the workflow kind, or the default placeholder task. -/
def arg_task (argv : List String) : String :=
  if argv.length > 2 then String.intercalate " " (argv.drop 2)
  else "Create a simple calculator"

/-- `main`: with fewer than two entries in `sys.argv` print usage and
exit 0; otherwise parse workflow and task, construct the orchestrator
(whose constructor runs `check_ollama` and exits 1 if the backend is
unavailable), then dispatch on the workflow kind, writing the record
to the fixed-name file, or exit 1 on an unknown kind. -/
def main_entry (available : Bool) (backend : Backend) (times : Nat → Rat)
    (argv : List String) : MainOutcome :=
  if argv.length < 2 then MainOutcome.exit0Usage
  else
    match check_ollama available with
    | some _ => MainOutcome.exit1BackendUnavailable
    | none =>
      if argv.getD 1 "" = "three-agent" then
        MainOutcome.wroteThreeAgent "multi_agent_results.json"
          (run_three_agent_workflow backend times (arg_task argv)).1
          (run_three_agent_workflow backend times (arg_task argv)).2
      else if argv.getD 1 "" = "iterative" then
        MainOutcome.wroteIterative "iterative_results.json"
          (run_iterative_refinement backend (arg_task argv)).1
          (run_iterative_refinement backend (arg_task argv)).2
      else MainOutcome.exit1UnknownWorkflow (argv.getD 1 "")

/-- C1: for every backend (failing outcomes included), clock and task,
a three-stage workflow run performs exactly the three invocations
Planning, Coding, Testing in that fixed order, each stage's recorded
output is the result of its own backend call (so all three stages
execute, with no abort, reordering or early exit), and the finalized
record carries the three stage results in that order. -/
theorem C1_three_stage_workflow (backend : Backend) (times : Nat → Rat)
    (task : String) :
    ((run_three_agent_workflow backend times task).2).length = 3 ∧
    ((run_three_agent_workflow backend times task).2).map
        (fun i => i.model_name)
      = [planningConfig.name, codingConfig.name, testingConfig.name] ∧
    ((run_three_agent_workflow backend times task).1).toPy.keys
      = ["task", "planning", "coding", "testing", "total_time_seconds",
         "workflow"] ∧
    ((run_three_agent_workflow backend times task).1).planning.plan
      = (call_model backend 0 planningConfig.name (planning_prompt task)
          planningConfig.temperature (some planning_system_prompt)).1 ∧
    ((run_three_agent_workflow backend times task).1).coding.code
      = (call_model backend 1 codingConfig.name
          (coding_prompt task
            ((run_three_agent_workflow backend times task).1).planning.plan)
          codingConfig.temperature (some coding_system_prompt)).1 ∧
    ((run_three_agent_workflow backend times task).1).testing.tests
      = (call_model backend 2 testingConfig.name
          (testing_prompt task
            ((run_three_agent_workflow backend times task).1).coding.code)
          testingConfig.temperature (some testing_system_prompt)).1 :=
  ⟨rfl, rfl, rfl, rfl, rfl, rfl⟩

/-- C2 counterexample: the stage executor does not return a failure
value distinguishable from a successful output text — a successful
backend call whose stdout happens to be "Error: Model call timed out"
yields exactly the same plain-string result as a timed-out call. -/
theorem C2_plain_string_counterexample :
    (call_model
        (fun _ _ _ =>
          BackendOutcome.success "Error: Model call timed out")
        0 "m" "p" 0.15 none).1
      = (call_model (fun _ _ _ => BackendOutcome.timeout)
          0 "m" "p" 0.15 none).1 := rfl

/-- C2 (amended): on timeout `call_model` returns the fixed plain
string "Error: Model call timed out", and on a backend-reported error
it returns "Error: " followed by the diagnostic detail — strings on
the same channel as successful output, not a distinct failure type. -/
theorem C2_error_strings (backend : Backend) (idx : Nat)
    (model_name prompt : String) (temperature : Rat)
    (system_prompt : Option String) (detail : String) :
    (backend idx model_name (full_prompt_of prompt system_prompt)
        = BackendOutcome.timeout →
      (call_model backend idx model_name prompt temperature
          system_prompt).1
        = "Error: Model call timed out") ∧
    (backend idx model_name (full_prompt_of prompt system_prompt)
        = BackendOutcome.calledProcessError detail →
      (call_model backend idx model_name prompt temperature
          system_prompt).1
        = "Error: " ++ detail) := by
  constructor <;> intro h <;> simp [call_model, h]

/-- C2 witness: both amended branches evaluated at a concrete backend. -/
theorem C2_error_strings_witness :
    (call_model (fun _ _ _ => BackendOutcome.timeout)
        0 "m" "p" 0.15 none).1 = "Error: Model call timed out" ∧
    (call_model
        (fun _ _ _ => BackendOutcome.calledProcessError "exit status 1")
        0 "m" "p" 0.15 none).1 = "Error: exit status 1" :=
  ⟨(C2_error_strings (fun _ _ _ => BackendOutcome.timeout)
      0 "m" "p" 0.15 none "exit status 1").1 rfl,
   (C2_error_strings
      (fun _ _ _ => BackendOutcome.calledProcessError "exit status 1")
      0 "m" "p" 0.15 none "exit status 1").2 rfl⟩

/-- C3 counterexample: the stage executor does not return the stdout
text unmodified — a successful call whose stdout is "out\n" returns
"out", the surrounding whitespace stripped. -/
theorem C3_strip_counterexample :
    (call_model (fun _ _ _ => BackendOutcome.success "out\n")
        0 "m" "p" 0.15 none).1 ≠ "out\n" := by decide

/-- C3 (amended): on success `call_model` returns the stdout text with
leading and trailing whitespace stripped, and applies no other
modification. -/
theorem C3_success_stripped (backend : Backend) (idx : Nat)
    (model_name prompt : String) (temperature : Rat)
    (system_prompt : Option String) (stdout : String)
    (h : backend idx model_name (full_prompt_of prompt system_prompt)
          = BackendOutcome.success stdout) :
    (call_model backend idx model_name prompt temperature
        system_prompt).1 = strip stdout := by
  simp [call_model, h]

/-- C3 witness: the amended statement evaluated at a concrete backend
whose stdout carries surrounding whitespace. -/
theorem C3_success_stripped_witness :
    (call_model (fun _ _ _ => BackendOutcome.success " hello \n")
        0 "m" "p" 0.15 none).1 = strip " hello \n" :=
  C3_success_stripped
    (fun _ _ _ => BackendOutcome.success " hello \n")
    0 "m" "p" 0.15 none " hello \n" rfl

/-- C4 counterexample: the stage result of a planning stage whose
backend call timed out carries no success flag and no error-detail
field — its keys are exactly "plan", "model" and a single
"timestamp". -/
theorem C4_no_success_flag_counterexample :
    ("success" ∉
      ((planning_agent (fun _ _ _ => BackendOutcome.timeout)
          0 3 "t").1).toPy.keys) ∧
    ("error" ∉
      ((planning_agent (fun _ _ _ => BackendOutcome.timeout)
          0 3 "t").1).toPy.keys) ∧
    ((planning_agent (fun _ _ _ => BackendOutcome.timeout)
        0 3 "t").1).toPy.keys = ["plan", "model", "timestamp"] :=
  ⟨by decide, by decide, rfl⟩

/-- C4 (amended): every stage result carries exactly an output-text
field, the model identifier and one timestamp — no success flag, no
error-detail field, no start/end timestamp pair — so a stage's outcome
can only be inferred from its output text. -/
theorem C4_stage_result_fields (backend : Backend) (idx : Nat)
    (t : Rat) (task plan code : String) :
    ((planning_agent backend idx t task).1).toPy.keys
      = ["plan", "model", "timestamp"] ∧
    ((coding_agent backend idx t task plan).1).toPy.keys
      = ["code", "model", "timestamp"] ∧
    ((testing_agent backend idx t task code).1).toPy.keys
      = ["tests", "model", "timestamp"] ∧
    ((planning_agent backend idx t task).1).timestamp = t ∧
    ((coding_agent backend idx t task plan).1).timestamp = t ∧
    ((testing_agent backend idx t task code).1).timestamp = t :=
  ⟨rfl, rfl, rfl, rfl, rfl, rfl⟩

/-- C5 counterexample: the finalized iterative-refinement record
contains neither the workflow kind nor the total elapsed duration —
its keys are exactly "task" and "iterations". -/
theorem C5_iterative_record_counterexample :
    ("workflow" ∉
      ((run_iterative_refinement
          (fun _ _ _ => BackendOutcome.success "x") "t").1).toPy.keys) ∧
    ("total_time_seconds" ∉
      ((run_iterative_refinement
          (fun _ _ _ => BackendOutcome.success "x") "t").1).toPy.keys) ∧
    ((run_iterative_refinement
        (fun _ _ _ => BackendOutcome.success "x") "t").1).toPy.keys
      = ["task", "iterations"] :=
  ⟨by decide, by decide, rfl⟩

/-- C5 (amended): the three-agent record carries the task, the three
ordered stage results, the total elapsed duration and the workflow
kind tag, while the iterative record carries only the task and the
ordered list of the 3 passes — no workflow kind, no duration. -/
theorem C5_record_contents (backend : Backend) (times : Nat → Rat)
    (task : String) :
    ((run_three_agent_workflow backend times task).1).toPy.keys
      = ["task", "planning", "coding", "testing", "total_time_seconds",
         "workflow"] ∧
    ((run_three_agent_workflow backend times task).1).task = task ∧
    ((run_three_agent_workflow backend times task).1).total_time_seconds
      = times 4 - times 0 ∧
    ((run_iterative_refinement backend task).1).toPy.keys
      = ["task", "iterations"] ∧
    ((run_iterative_refinement backend task).1).task = task ∧
    ((run_iterative_refinement backend task).1).iterations.length = 3 :=
  ⟨rfl, rfl, rfl, rfl, rfl, rfl⟩

/-- C6: for every task and every prior-stage text — successful output
or failure text alike — each follow-up prompt embeds the prior text
verbatim, directly beneath its labeled section, and in an actual
three-agent run the second and third invocations' full prompts embed
the previous stage's recorded result text the same way. -/
theorem C6_prior_context_verbatim (backend : Backend)
    (times : Nat → Rat) (task prior : String) :
    (∃ r, coding_prompt task prior
      = "Task: " ++ task ++ "\n\nImplementation Plan:\n" ++ prior ++ r) ∧
    (∃ r, testing_prompt task prior
      = "Task: " ++ task ++ "\n\nCode to test:\n" ++ prior ++ r) ∧
    (∃ r, refine_prompt task prior
      = "Task: " ++ task ++ "\n\nInitial draft:\n" ++ prior ++ r) ∧
    (∃ r, deepfix_prompt task prior
      = "Task: " ++ task ++ "\n\nRefined code:\n" ++ prior ++ r) ∧
    (∃ r₁ r₂,
      ((run_three_agent_workflow backend times task).2).map
          (fun i => i.full_prompt)
        = [full_prompt_of (planning_prompt task)
             (some planning_system_prompt),
           coding_system_prompt ++ "\n\n" ++
             ("Task: " ++ task ++ "\n\nImplementation Plan:\n" ++
              ((run_three_agent_workflow backend times task).1).planning.plan
              ++ r₁),
           testing_system_prompt ++ "\n\n" ++
             ("Task: " ++ task ++ "\n\nCode to test:\n" ++
              ((run_three_agent_workflow backend times task).1).coding.code
              ++ r₂)]) := by
  refine ⟨⟨_, rfl⟩, ⟨_, rfl⟩, ⟨_, rfl⟩, ⟨_, rfl⟩, ?_⟩
  exact ⟨"\n\nPlease implement the code according to this plan. Provide complete, working code.\n",
         "\n\nPlease:\n1. Review the code for potential issues\n2. Generate comprehensive unit tests\n3. Identify any bugs or improvements needed\n",
         rfl⟩

/-- C7: for every backend (failing intermediate passes included) and
task, an iterative refinement run performs exactly 3 invocations with
the hardcoded model/temperature pairs — q4 draft at 0.2, q6 refine at
0.15, q8 deep fix at 0.15 — in that fixed order, and its record lists
the 3 passes 1, 2, 3 in order, with no early termination. -/
theorem C7_iterative_fixed_passes (backend : Backend) (task : String) :
    ((run_iterative_refinement backend task).2).map
        (fun i => (i.model_name, i.temperature))
      = [("qwen2.5-coder:7b-instruct-q4_K_M", (0.2 : Rat)),
         ("qwen2.5-coder:7b-instruct-q6_K", (0.15 : Rat)),
         ("qwen2.5-coder:7b-instruct-q8_0", (0.15 : Rat))] ∧
    ((run_iterative_refinement backend task).1).iterations.map
        (fun i => (i.pass, i.model))
      = [(1, "7b-q4"), (2, "7b-q6"), (3, "7b-q8")] ∧
    ((run_iterative_refinement backend task).1).iterations.length = 3 :=
  ⟨rfl, rfl, rfl⟩

/-- C8: with a workflow argument present, an unavailable backend makes
the entry point exit with status 1 before any stage runs — no
invocation performed, no record written — regardless of the workflow
kind; conversely with the backend available, both workflow kinds run
to completion for every backend behavior (stage failures included) and
write their full record. -/
theorem C8_backend_precondition (backend : Backend)
    (times : Nat → Rat) (argv : List String) (h : 2 ≤ argv.length) :
    (main_entry false backend times argv
        = MainOutcome.exit1BackendUnavailable ∧
     (main_entry false backend times argv).exitCode = 1 ∧
     (main_entry false backend times argv).writtenFile = none ∧
     (main_entry false backend times argv).invocations = []) ∧
    (argv.getD 1 "" = "three-agent" →
      main_entry true backend times argv
        = MainOutcome.wroteThreeAgent "multi_agent_results.json"
            (run_three_agent_workflow backend times (arg_task argv)).1
            (run_three_agent_workflow backend times (arg_task argv)).2) ∧
    (argv.getD 1 "" = "iterative" →
      main_entry true backend times argv
        = MainOutcome.wroteIterative "iterative_results.json"
            (run_iterative_refinement backend (arg_task argv)).1
            (run_iterative_refinement backend (arg_task argv)).2) := by
  have hlt : ¬ argv.length < 2 := Nat.not_lt.mpr h
  have hmain : main_entry false backend times argv
      = MainOutcome.exit1BackendUnavailable := by
    unfold main_entry
    rw [if_neg hlt]
    rfl
  refine ⟨⟨hmain, ?_, ?_, ?_⟩, ?_, ?_⟩
  · rw [hmain]
    rfl
  · rw [hmain]
    rfl
  · rw [hmain]
    rfl
  · intro hw
    unfold main_entry
    rw [if_neg hlt, hw]
    rfl
  · intro hw
    unfold main_entry
    rw [if_neg hlt, hw]
    rfl

/-- C8 witness: the theorem applied to a concrete argument vector and
a concrete always-failing backend. -/
theorem C8_backend_precondition_witness :
    (main_entry false (fun _ _ _ => BackendOutcome.timeout)
        (fun _ => 0) ["multi_agent.py", "three-agent", "hello"]).exitCode
      = 1 ∧
    main_entry true (fun _ _ _ => BackendOutcome.timeout)
        (fun _ => 0) ["multi_agent.py", "three-agent", "hello"]
      = MainOutcome.wroteThreeAgent "multi_agent_results.json"
          (run_three_agent_workflow (fun _ _ _ => BackendOutcome.timeout)
            (fun _ => 0)
            (arg_task ["multi_agent.py", "three-agent", "hello"])).1
          (run_three_agent_workflow (fun _ _ _ => BackendOutcome.timeout)
            (fun _ => 0)
            (arg_task ["multi_agent.py", "three-agent", "hello"])).2 :=
  ⟨(C8_backend_precondition (fun _ _ _ => BackendOutcome.timeout)
      (fun _ => 0) ["multi_agent.py", "three-agent", "hello"]
      (by decide)).1.2.1,
   (C8_backend_precondition (fun _ _ _ => BackendOutcome.timeout)
      (fun _ => 0) ["multi_agent.py", "three-agent", "hello"]
      (by decide)).2.1 rfl⟩

/-- C9 counterexample: the Reviewing role is in the fixed role set but
has no entry in the registry — looking it up returns nothing rather
than a config whose role field is Reviewing. -/
theorem C9_reviewing_unregistered_counterexample :
    MODELS AgentRole.reviewing = none := rfl

/-- C9 (amended): for every role other than Reviewing the registry
lookup returns a config whose role field equals the queried role;
Reviewing has no statically defined entry, so its lookup fails
(a KeyError in the source, `none` here). -/
theorem C9_registry_roles (r : AgentRole)
    (h : r ≠ AgentRole.reviewing) :
    ∃ c, MODELS r = some c ∧ c.role = r := by
  cases r with
  | planning => exact ⟨planningConfig, rfl, rfl⟩
  | coding => exact ⟨codingConfig, rfl, rfl⟩
  | testing => exact ⟨testingConfig, rfl, rfl⟩
  | reviewing => exact absurd rfl h

/-- C9 witness: the amended statement applied to the Planning role. -/
theorem C9_registry_roles_witness :
    ∃ c, MODELS AgentRole.planning = some c ∧
      c.role = AgentRole.planning :=
  C9_registry_roles AgentRole.planning (by decide)

/-- C10: invoking the entry point with no arguments beyond the program
name prints usage and exits with status 0, running no workflow and
writing no record, while a present-but-unknown workflow kind (with the
backend available) exits with status 1. -/
theorem C10_usage_and_unknown_workflow (available : Bool)
    (backend : Backend) (times : Nat → Rat) (prog : String)
    (argv : List String) (h : 2 ≤ argv.length)
    (hw1 : argv.getD 1 "" ≠ "three-agent")
    (hw2 : argv.getD 1 "" ≠ "iterative") :
    (main_entry available backend times [prog]
        = MainOutcome.exit0Usage ∧
     (main_entry available backend times [prog]).exitCode = 0 ∧
     (main_entry available backend times [prog]).writtenFile = none ∧
     (main_entry available backend times [prog]).invocations = []) ∧
    (main_entry true backend times argv
        = MainOutcome.exit1UnknownWorkflow (argv.getD 1 "") ∧
     (main_entry true backend times argv).exitCode = 1) := by
  have hlt : ¬ argv.length < 2 := Nat.not_lt.mpr h
  have hmain : main_entry true backend times argv
      = MainOutcome.exit1UnknownWorkflow (argv.getD 1 "") := by
    unfold main_entry
    rw [if_neg hlt, show check_ollama true = none from rfl,
        if_neg hw1, if_neg hw2]
  refine ⟨⟨rfl, rfl, rfl, rfl⟩, hmain, ?_⟩
  rw [hmain]
  rfl

/-- C10 witness: the theorem applied to the concrete argument vectors
["multi_agent.py"] and ["multi_agent.py", "bogus"]. -/
theorem C10_usage_witness :
    main_entry true (fun _ _ _ => BackendOutcome.timeout)
        (fun _ => 0) ["multi_agent.py"] = MainOutcome.exit0Usage ∧
    main_entry true (fun _ _ _ => BackendOutcome.timeout)
        (fun _ => 0) ["multi_agent.py", "bogus"]
      = MainOutcome.exit1UnknownWorkflow "bogus" :=
  ⟨(C10_usage_and_unknown_workflow true
      (fun _ _ _ => BackendOutcome.timeout) (fun _ => 0)
      "multi_agent.py" ["multi_agent.py", "bogus"]
      (by decide) (by decide) (by decide)).1.1,
   (C10_usage_and_unknown_workflow true
      (fun _ _ _ => BackendOutcome.timeout) (fun _ => 0)
      "multi_agent.py" ["multi_agent.py", "bogus"]
      (by decide) (by decide) (by decide)).2.1⟩
